import Mathlib

/-!
Verification of delta's environment snapshot and pager resolution
(`src/env.rs`: `DeltaEnv::init` and `get_pager_from_env`).

The Rust code is embedded shallowly:
* environment-variable reads (`env::var(..).ok()`) become `Option String`
  parameters (an environment is a map `String → Option String`);
* `shell_words::split` (the external crate the source calls at
  `src/env.rs:202`) is embedded as the crate's character-level state
  machine, returning `none` on a parse error;
* `std::path::Path::file_stem` is embedded following the Rust standard
  library's `components` / `file_name` / `split_file_at_dot` semantics;
* `env::args_os().next()` (argv[0]) becomes an `Option String` parameter.
-/

/-- Single-quote character (code 39), written numerically. -/
def chQuoteS : Char := Char.ofNat 39

/-- Double-quote character (code 34). -/
def chQuoteD : Char := Char.ofNat 34

/-- Backslash character (code 92). -/
def chBackslash : Char := Char.ofNat 92

/-- Newline character (code 10). -/
def chNewline : Char := Char.ofNat 10

/-- Tab character (code 9). -/
def chTab : Char := Char.ofNat 9

/-- Space character (code 32). -/
def chSpace : Char := Char.ofNat 32

/-- Hash character (code 35). -/
def chHash : Char := Char.ofNat 35

/-- Dollar character (code 36). -/
def chDollar : Char := Char.ofNat 36

/-- Backtick character (code 96). -/
def chBacktick : Char := Char.ofNat 96

/-- Dot character (code 46). -/
def chDot : Char := Char.ofNat 46

/-- Forward-slash character (code 47). -/
def chSlash : Char := Char.ofNat 47

/-- The states of the `shell_words` crate's `split` state machine
(its `enum State`). -/
inductive SwState
  | delimiter
  | backslash
  | unquoted
  | unquotedBackslash
  | singleQuoted
  | doubleQuoted
  | doubleQuotedBackslash
  | comment

/-- The loop body of the `shell_words` crate's `split`: one transition per
input character, carrying the word being built (`word`) and the words
produced so far (`words`); `none` models `Err(ParseError)` (reached at end
of input inside a quoted region or after a backslash in double quotes). -/
def splitAux : SwState → List Char → String → List String → Option (List String)
  | st, [], word, words =>
    match st with
    | .delimiter => some words
    | .backslash => some (words ++ [word.push chBackslash])
    | .unquoted => some (words ++ [word])
    | .unquotedBackslash => some (words ++ [word.push chBackslash])
    | .singleQuoted => none
    | .doubleQuoted => none
    | .doubleQuotedBackslash => none
    | .comment => some words
  | .delimiter, c :: rest, word, words =>
    if c = chQuoteS then splitAux .singleQuoted rest word words
    else if c = chQuoteD then splitAux .doubleQuoted rest word words
    else if c = chBackslash then splitAux .backslash rest word words
    else if c = chTab ∨ c = chSpace ∨ c = chNewline then
      splitAux .delimiter rest word words
    else if c = chHash then splitAux .comment rest word words
    else splitAux .unquoted rest (word.push c) words
  | .backslash, c :: rest, word, words =>
    if c = chNewline then splitAux .delimiter rest word words
    else splitAux .unquoted rest (word.push c) words
  | .unquoted, c :: rest, word, words =>
    if c = chQuoteS then splitAux .singleQuoted rest word words
    else if c = chQuoteD then splitAux .doubleQuoted rest word words
    else if c = chBackslash then splitAux .unquotedBackslash rest word words
    else if c = chTab ∨ c = chSpace ∨ c = chNewline then
      splitAux .delimiter rest "" (words ++ [word])
    else splitAux .unquoted rest (word.push c) words
  | .unquotedBackslash, c :: rest, word, words =>
    if c = chNewline then splitAux .unquoted rest word words
    else splitAux .unquoted rest (word.push c) words
  | .singleQuoted, c :: rest, word, words =>
    if c = chQuoteS then splitAux .unquoted rest word words
    else splitAux .singleQuoted rest (word.push c) words
  | .doubleQuoted, c :: rest, word, words =>
    if c = chQuoteD then splitAux .unquoted rest word words
    else if c = chBackslash then splitAux .doubleQuotedBackslash rest word words
    else splitAux .doubleQuoted rest (word.push c) words
  | .doubleQuotedBackslash, c :: rest, word, words =>
    if c = chNewline then splitAux .doubleQuoted rest word words
    else if c = chDollar ∨ c = chBacktick ∨ c = chQuoteD ∨ c = chBackslash then
      splitAux .doubleQuoted rest (word.push c) words
    else splitAux .doubleQuoted rest ((word.push chBackslash).push c) words
  | .comment, c :: rest, word, words =>
    if c = chNewline then splitAux .delimiter rest word words
    else splitAux .comment rest word words

/-- `shell_words::split`: shell-aware tokenization honoring single quotes,
double quotes and backslash escaping; `none` on malformed quoting
(the crate's `Err(ParseError)`). -/
def shell_words.split (s : String) : Option (List String) :=
  splitAux SwState.delimiter s.toList "" []

/-- Split a character list at every slash (the components of a path
before normalization). -/
def pathComponentsAux : List Char → List Char → List (List Char)
  | [], acc => [acc.reverse]
  | c :: rest, acc =>
    if c = chSlash then acc.reverse :: pathComponentsAux rest []
    else pathComponentsAux rest (c :: acc)

/-- `std::path::Path::file_name` for Unix paths: the last normal component
(empty and `.` components dropped), `none` when the path is empty, is a
root, or ends in `..`. -/
def rustFileName (s : String) : Option String :=
  let comps := (pathComponentsAux s.toList []).filter
    (fun c => decide (c ≠ [] ∧ c ≠ [chDot]))
  match comps.getLast? with
  | none => none
  | some c => if c = [chDot, chDot] then none else some (String.mk c)

/-- Rust's `split_file_at_dot` applied to a file name, keeping the stem:
everything before the last dot, except that a name with no dot, or whose
only dot is the leading character, is its own stem. -/
def stemOfFileName (cs : List Char) : List Char :=
  if cs.contains chDot then
    let i := cs.length - 1 - (cs.reverse.indexOf chDot)
    if i = 0 then cs else cs.take i
  else cs

/-- `std::path::Path::file_stem`: the file name without its extension. -/
def rustFileStem (s : String) : Option String :=
  (rustFileName s).map (fun name => String.mk (stemOfFileName name.toList))

/-- The source-selection `match` of `get_pager_from_env`
(`src/env.rs:195-199`): `BAT_PAGER` if present (Rust's `env::var`
returns `Ok` for any set variable, including one set to the empty
string), else `PAGER` if present (marked as coming from the `PAGER`
environment variable), else the literal `"less"`. -/
def selectPagerCmd : Option String → Option String → String × Bool
  | some b, _ => (b, false)
  | none, some p => (p, true)
  | none, none => ("less", false)

/-- The local `is_current_bin_pager` of `get_pager_from_env`
(`src/env.rs:206-210`): argv[0]'s file stem equals the candidate
executable's file stem (an `Option` equality in Rust, so two absent
stems also compare equal); `false` when argv[0] is unavailable. -/
def isCurrentBinPager (argv0 : Option String) (bin : String) : Bool :=
  (argv0.map (fun s => decide (rustFileStem s = rustFileStem bin))).getD false

/-- The local `is_problematic_pager` of `get_pager_from_env`
(`src/env.rs:212-221`): only a candidate sourced from the `PAGER`
environment variable is ever problematic, namely when its executable's
file stem is `more` or `most`, or otherwise when it matches the running
program (`is_current_bin_pager`). The Rust `match` with two literal arms
and a guarded wildcard is rendered as the equivalent conditional. -/
def isProblematicPager (from_pager_env : Bool) (bin : String)
    (argv0 : Option String) : Bool :=
  if from_pager_env then
    if rustFileStem bin = some "more" ∨ rustFileStem bin = some "most" then true
    else isCurrentBinPager argv0 bin
  else false

/-- `get_pager_from_env` (`src/env.rs:191-236`), as a function of the two
environment variables it reads (`BAT_PAGER`, `PAGER`) and of argv[0]:
select the candidate by precedence, tokenize it with `shell_words::split`,
and return `"less"` when tokenization fails, when the token list is empty,
or when the candidate is problematic; otherwise return the original,
untokenized candidate string. -/
def get_pager_from_env (bat_pager pager argv0 : Option String) : Option String :=
  match shell_words.split (selectPagerCmd bat_pager pager).1 with
  | some (bin :: _args) =>
    if isProblematicPager (selectPagerCmd bat_pager pager).2 bin argv0 then
      some "less"
    else
      some (selectPagerCmd bat_pager pager).1
  | some [] => some "less"
  | none => some "less"

/-- The `DeltaEnv` structure (`src/env.rs:14-26`); paths are modelled as
strings. -/
structure DeltaEnv where
  bat_theme : Option String
  colorterm : Option String
  current_dir : Option String
  experimental_max_line_distance_for_naively_paired_lines : Option String
  features : Option String
  git_config_parameters : Option String
  git_prefix : Option String
  hostname : Option String
  navigate : Option String
  pagers : Option String × Option String

/-- `DeltaEnv::init` (`src/env.rs:30-63`) as a function of the environment
map `ρ` and of the three other process inputs it consumes: the current
working directory, the hostname lookup result, and argv[0] (read inside
`get_pager_from_env`). `pagers` pairs the raw `DELTA_PAGER` value with the
resolved pager. -/
def DeltaEnv.init (ρ : String → Option String)
    (cwd hn argv0 : Option String) : DeltaEnv :=
  { bat_theme := ρ "BAT_THEME"
    colorterm := ρ "COLORTERM"
    current_dir := cwd
    experimental_max_line_distance_for_naively_paired_lines :=
      ρ "DELTA_EXPERIMENTAL_MAX_LINE_DISTANCE_FOR_NAIVELY_PAIRED_LINES"
    features := ρ "DELTA_FEATURES"
    git_config_parameters := ρ "GIT_CONFIG_PARAMETERS"
    git_prefix := ρ "GIT_PREFIX"
    hostname := hn
    navigate := ρ "DELTA_NAVIGATE"
    pagers := (ρ "DELTA_PAGER",
      get_pager_from_env (ρ "BAT_PAGER") (ρ "PAGER") argv0) }

/-! ## Shared resolution lemmas -/

/-- The resolved fallback pager of a snapshot is exactly the result of
`get_pager_from_env` on the snapshot's environment. -/
theorem DeltaEnv.init_pagers_fallback (ρ : String → Option String)
    (cwd hn argv0 : Option String) :
    (DeltaEnv.init ρ cwd hn argv0).pagers.2 =
      get_pager_from_env (ρ "BAT_PAGER") (ρ "PAGER") argv0 := rfl

/-- When tokenization of the selected candidate fails, the resolver
returns `"less"`. -/
theorem gpfe_of_split_err (bat_pager pager argv0 : Option String)
    (h : shell_words.split (selectPagerCmd bat_pager pager).1 = none) :
    get_pager_from_env bat_pager pager argv0 = some "less" := by
  unfold get_pager_from_env
  rw [h]

/-- When the selected candidate tokenizes to the empty list, the resolver
returns `"less"`. -/
theorem gpfe_of_split_nil (bat_pager pager argv0 : Option String)
    (h : shell_words.split (selectPagerCmd bat_pager pager).1 = some []) :
    get_pager_from_env bat_pager pager argv0 = some "less" := by
  unfold get_pager_from_env
  rw [h]

/-- When the selected candidate tokenizes to a nonempty list and is
problematic, the resolver returns `"less"`. -/
theorem gpfe_of_problematic (bat_pager pager argv0 : Option String)
    (bin : String) (args : List String)
    (h : shell_words.split (selectPagerCmd bat_pager pager).1 = some (bin :: args))
    (hp : isProblematicPager (selectPagerCmd bat_pager pager).2 bin argv0 = true) :
    get_pager_from_env bat_pager pager argv0 = some "less" := by
  unfold get_pager_from_env
  rw [h]
  simp [hp]

/-- When the selected candidate tokenizes to a nonempty list and is not
problematic, the resolver returns the original candidate string. -/
theorem gpfe_of_ok (bat_pager pager argv0 : Option String)
    (bin : String) (args : List String)
    (h : shell_words.split (selectPagerCmd bat_pager pager).1 = some (bin :: args))
    (hp : isProblematicPager (selectPagerCmd bat_pager pager).2 bin argv0 = false) :
    get_pager_from_env bat_pager pager argv0 =
      some (selectPagerCmd bat_pager pager).1 := by
  unfold get_pager_from_env
  rw [h]
  simp [hp]

/-- A candidate not sourced from `PAGER` is never problematic. -/
theorem isProblematicPager_false_left (bin : String) (argv0 : Option String) :
    isProblematicPager false bin argv0 = false := rfl

/-- A `PAGER`-sourced candidate whose stem is neither `more` nor `most` is
problematic exactly when it matches the running program. -/
theorem isProblematicPager_not_bad (bin : String) (argv0 : Option String)
    (h1 : rustFileStem bin ≠ some "more") (h2 : rustFileStem bin ≠ some "most") :
    isProblematicPager true bin argv0 = isCurrentBinPager argv0 bin := by
  unfold isProblematicPager
  simp [h1, h2]

/-- A `PAGER`-sourced candidate whose stem is `more` or `most` is
problematic. -/
theorem isProblematicPager_bad (bin : String) (argv0 : Option String)
    (h : rustFileStem bin = some "more" ∨ rustFileStem bin = some "most") :
    isProblematicPager true bin argv0 = true := by
  unfold isProblematicPager
  simp [h]

/-- With argv[0] unavailable the self-recursion comparison is `false`. -/
theorem isCurrentBinPager_none (bin : String) :
    isCurrentBinPager none bin = false := rfl

/-- When argv[0]'s stem equals the candidate's stem the self-recursion
comparison is `true`. -/
theorem isCurrentBinPager_eq (a bin : String)
    (h : rustFileStem a = rustFileStem bin) :
    isCurrentBinPager (some a) bin = true := by
  unfold isCurrentBinPager
  simp [h]

/-! ## Claim theorems -/

/-- Claim C1, counterexample: with the override `BAT_PAGER` set to `delta`
and the running program `/usr/bin/delta` (equal file stems), the resolver
returns the candidate verbatim, not the substitute `"less"` — the
self-recursion guard does not fire for override-sourced candidates,
contrary to the claim that it applies whichever source the candidate
came from. -/
theorem claim_C1_counterexample :
    get_pager_from_env (some "delta") none (some "/usr/bin/delta") = some "delta"
    ∧ get_pager_from_env (some "delta") none (some "/usr/bin/delta") ≠ some "less" := by
  constructor
  · decide
  · decide

/-- Claim C1, amended: the self-recursion guard applies only to candidates
sourced from the general variable `PAGER` — if `BAT_PAGER` is unset and
`PAGER`'s first token has the same file stem as argv[0], the resolver
returns `"less"`; a candidate sourced from the override `BAT_PAGER` that
tokenizes to a nonempty list is always returned verbatim, even when its
file stem equals argv[0]'s. -/
theorem claim_C1_amended :
    (∀ (p a bin : String) (args : List String),
      shell_words.split p = some (bin :: args) →
      rustFileStem a = rustFileStem bin →
      get_pager_from_env none (some p) (some a) = some "less")
    ∧ (∀ (b : String) (pager argv0 : Option String) (bin : String) (args : List String),
      shell_words.split b = some (bin :: args) →
      get_pager_from_env (some b) pager argv0 = some b) := by
  constructor
  · intro p a bin args hsplit hstem
    apply gpfe_of_problematic none (some p) (some a) bin args hsplit
    show isProblematicPager true bin (some a) = true
    by_cases hbad : rustFileStem bin = some "more" ∨ rustFileStem bin = some "most"
    · exact isProblematicPager_bad bin (some a) hbad
    · push_neg at hbad
      rw [isProblematicPager_not_bad bin (some a) hbad.1 hbad.2]
      exact isCurrentBinPager_eq a bin hstem
  · intro b pager argv0 bin args hsplit
    exact gpfe_of_ok (some b) pager argv0 bin args hsplit
      (isProblematicPager_false_left bin argv0)

/-- Claim C1, witness for the amended theorem: `PAGER=delta` running as
`/usr/bin/delta` is substituted with `"less"`, while `BAT_PAGER=delta`
running as `/usr/bin/delta` is returned verbatim. -/
theorem claim_C1_witness :
    get_pager_from_env none (some "delta") (some "/usr/bin/delta") = some "less"
    ∧ get_pager_from_env (some "delta") none (some "/usr/bin/delta") = some "delta" :=
  ⟨claim_C1_amended.1 "delta" "/usr/bin/delta" "delta" [] (by decide) (by decide),
   claim_C1_amended.2 "delta" none (some "/usr/bin/delta") "delta" [] (by decide)⟩

/-- Claim C2: with `BAT_PAGER` unset and `PAGER` set to the compound shell
command `/bin/sh -c "head -10000 | cat"`, the resolved `pagers.fallback`
is that exact string (whenever the running program's stem is not `sh`,
i.e. the self-recursion comparison is false); and in general the resolver
returns either the substitute `"less"` or the original, untokenized
candidate string exactly as supplied — never a re-serialization of its
tokens. -/
theorem claim_C2_theorem :
    (∀ (ρ : String → Option String) (cwd hn argv0 : Option String),
      ρ "BAT_PAGER" = none →
      ρ "PAGER" = some "/bin/sh -c \"head -10000 | cat\"" →
      isCurrentBinPager argv0 "/bin/sh" = false →
      (DeltaEnv.init ρ cwd hn argv0).pagers.2 =
        some "/bin/sh -c \"head -10000 | cat\"")
    ∧ (∀ (bat_pager pager argv0 : Option String),
      get_pager_from_env bat_pager pager argv0 = some "less" ∨
      get_pager_from_env bat_pager pager argv0 =
        some (selectPagerCmd bat_pager pager).1) := by
  constructor
  · intro ρ cwd hn argv0 hbp hp hself
    rw [DeltaEnv.init_pagers_fallback, hbp, hp]
    apply gpfe_of_ok none (some "/bin/sh -c \"head -10000 | cat\"") argv0
      "/bin/sh" ["-c", "head -10000 | cat"] (by decide)
    show isProblematicPager true "/bin/sh" argv0 = false
    rw [isProblematicPager_not_bad _ _ (by decide) (by decide)]
    exact hself
  · intro bat_pager pager argv0
    rcases h : shell_words.split (selectPagerCmd bat_pager pager).1 with _ | l
    · exact Or.inl (gpfe_of_split_err bat_pager pager argv0 h)
    · rcases l with _ | ⟨bin, args⟩
      · exact Or.inl (gpfe_of_split_nil bat_pager pager argv0 h)
      · cases hp : isProblematicPager (selectPagerCmd bat_pager pager).2 bin argv0
        · exact Or.inr (gpfe_of_ok bat_pager pager argv0 bin args h hp)
        · exact Or.inl (gpfe_of_problematic bat_pager pager argv0 bin args h hp)

/-- Claim C2, witness: a concrete environment with only `PAGER` set to the
compound command, running as `delta`, resolves to that exact string; and
the round-trip disjunction at a concrete input. -/
theorem claim_C2_witness :
    (DeltaEnv.init
      (fun v => if v = "PAGER" then some "/bin/sh -c \"head -10000 | cat\"" else none)
      none none (some "delta")).pagers.2 =
      some "/bin/sh -c \"head -10000 | cat\""
    ∧ (get_pager_from_env none (some "cat") none = some "less" ∨
       get_pager_from_env none (some "cat") none =
         some (selectPagerCmd none (some "cat")).1) :=
  ⟨claim_C2_theorem.1 _ none none (some "delta") (by decide) (by decide) (by decide),
   claim_C2_theorem.2 none (some "cat") none⟩

/-- Claim C3, counterexample: with `BAT_PAGER` set to the empty string and
`PAGER` set to `cat`, the candidate is the empty override (not `PAGER`'s
value) with `fromGeneralSource = false`, and the resolution yields
`"less"`, not `"cat"` — Rust's `env::var` returns `Ok` for a set-but-empty
variable and the code checks presence only, contrary to the claim's
"present and non-empty" precedence. -/
theorem claim_C3_counterexample :
    selectPagerCmd (some "") (some "cat") = ("", false)
    ∧ get_pager_from_env (some "") (some "cat") (some "delta") = some "less"
    ∧ get_pager_from_env (some "") (some "cat") (some "delta") ≠ some "cat" := by
  refine ⟨rfl, by decide, by decide⟩

/-- Claim C3, amended: precedence is decided by presence alone — if
`BAT_PAGER` is present (even set to the empty string), its raw text is the
candidate with `fromGeneralSource = false`; otherwise if `PAGER` is
present, its value is the candidate with `fromGeneralSource = true`; if
neither is present, the candidate is the literal `"less"` with
`fromGeneralSource = false`. In particular, when `BAT_PAGER` is set to the
empty string the candidate is the empty string and resolution yields
`"less"`, regardless of `PAGER`. -/
theorem claim_C3_amended :
    (∀ (b : String) (pager : Option String), selectPagerCmd (some b) pager = (b, false))
    ∧ (∀ p : String, selectPagerCmd none (some p) = (p, true))
    ∧ selectPagerCmd none none = ("less", false)
    ∧ (∀ (pager argv0 : Option String),
        get_pager_from_env (some "") pager argv0 = some "less") := by
  refine ⟨fun _ _ => rfl, fun _ => rfl, rfl, fun pager argv0 => ?_⟩
  exact gpfe_of_split_nil (some "") pager argv0 rfl

/-- Claim C3, witness for the amended theorem at concrete inputs. -/
theorem claim_C3_witness :
    selectPagerCmd (some "x") (some "y") = ("x", false)
    ∧ selectPagerCmd none (some "y") = ("y", true)
    ∧ get_pager_from_env (some "") (some "cat") none = some "less" :=
  ⟨claim_C3_amended.1 "x" (some "y"), claim_C3_amended.2.1 "y",
   claim_C3_amended.2.2.2 (some "cat") none⟩

/-- Claim C4: when `BAT_PAGER` is unset and `PAGER` is set to a command
whose first token's file stem is `more` or `most`, the resolved
`pagers.fallback` is `"less"`. -/
theorem claim_C4_theorem :
    ∀ (ρ : String → Option String) (cwd hn argv0 : Option String)
      (p bin : String) (args : List String),
      ρ "BAT_PAGER" = none → ρ "PAGER" = some p →
      shell_words.split p = some (bin :: args) →
      (rustFileStem bin = some "more" ∨ rustFileStem bin = some "most") →
      (DeltaEnv.init ρ cwd hn argv0).pagers.2 = some "less" := by
  intro ρ cwd hn argv0 p bin args hbp hp hsplit hstem
  rw [DeltaEnv.init_pagers_fallback, hbp, hp]
  exact gpfe_of_problematic none (some p) argv0 bin args hsplit
    (isProblematicPager_bad bin argv0 hstem)

/-- Claim C4, witness: `PAGER=more` and `PAGER="most -w"` both resolve to
`"less"`. -/
theorem claim_C4_witness :
    (DeltaEnv.init (fun v => if v = "PAGER" then some "more" else none)
      none none (some "delta")).pagers.2 = some "less"
    ∧ (DeltaEnv.init (fun v => if v = "PAGER" then some "most -w" else none)
      none none none).pagers.2 = some "less" :=
  ⟨claim_C4_theorem _ none none (some "delta") "more" "more" []
    (by decide) (by decide) (by decide) (Or.inl (by decide)),
   claim_C4_theorem _ none none none "most -w" "most" ["-w"]
    (by decide) (by decide) (by decide) (Or.inr (by decide))⟩

/-- Claim C5: a candidate sourced from the override `BAT_PAGER` is never
flagged by the known-problematic-pager rule — even when its first token's
file stem is `more` or `most`, it is returned verbatim. -/
theorem claim_C5_theorem :
    ∀ (b : String) (pager argv0 : Option String) (bin : String) (args : List String),
      shell_words.split b = some (bin :: args) →
      (rustFileStem bin = some "more" ∨ rustFileStem bin = some "most") →
      get_pager_from_env (some b) pager argv0 = some b := by
  intro b pager argv0 bin args hsplit _
  exact gpfe_of_ok (some b) pager argv0 bin args hsplit
    (isProblematicPager_false_left bin argv0)

/-- Claim C5, witness: `BAT_PAGER=more` (with `PAGER=cat` also set) is
returned verbatim. -/
theorem claim_C5_witness :
    get_pager_from_env (some "more") (some "cat") (some "delta") = some "more" :=
  claim_C5_theorem "more" (some "cat") (some "delta") "more" []
    (by decide) (Or.inl (by decide))

/-- Claim C6: `pagers.primary` is exactly the raw value of the
`DELTA_PAGER` variable — stored verbatim when set (never tokenized,
substituted or validated, whatever its content), absent when unset. -/
theorem claim_C6_theorem :
    ∀ (ρ : String → Option String) (cwd hn argv0 : Option String),
      (DeltaEnv.init ρ cwd hn argv0).pagers.1 = ρ "DELTA_PAGER" :=
  fun _ _ _ _ => rfl

/-- Claim C6, witness: a `DELTA_PAGER` value with malformed quoting (a
lone single-quote character) is stored verbatim. -/
theorem claim_C6_witness :
    (DeltaEnv.init
      (fun v => if v = "DELTA_PAGER" then some (String.mk [chQuoteS]) else none)
      none none none).pagers.1 = some (String.mk [chQuoteS]) :=
  (claim_C6_theorem _ none none none).trans (by decide)

/-- Claim C7: when shell-aware tokenization of the selected candidate
fails (malformed quoting), the resolver returns the literal `"less"`
rather than propagating an error. -/
theorem claim_C7_theorem :
    ∀ (bat_pager pager argv0 : Option String),
      shell_words.split (selectPagerCmd bat_pager pager).1 = none →
      get_pager_from_env bat_pager pager argv0 = some "less" :=
  fun bat_pager pager argv0 h => gpfe_of_split_err bat_pager pager argv0 h

/-- Claim C7, witness: a candidate consisting of a lone single quote fails
to tokenize and resolves to `"less"`. -/
theorem claim_C7_witness :
    get_pager_from_env (some (String.mk [chQuoteS])) none none = some "less" :=
  claim_C7_theorem (some (String.mk [chQuoteS])) none none (by decide)

/-- Claim C8: when the selected candidate tokenizes to an empty token list
(for example the empty string or whitespace only), the resolver returns
the literal `"less"`. -/
theorem claim_C8_theorem :
    ∀ (bat_pager pager argv0 : Option String),
      shell_words.split (selectPagerCmd bat_pager pager).1 = some [] →
      get_pager_from_env bat_pager pager argv0 = some "less" :=
  fun bat_pager pager argv0 h => gpfe_of_split_nil bat_pager pager argv0 h

/-- Claim C8, witness: a whitespace-only `PAGER` resolves to `"less"`. -/
theorem claim_C8_witness :
    get_pager_from_env none (some "   ") none = some "less" :=
  claim_C8_theorem none (some "   ") none (by decide)

/-- Claim C9: when neither `BAT_PAGER` nor `PAGER` is set, the resolved
`pagers.fallback` is `"less"`. -/
theorem claim_C9_theorem :
    ∀ (ρ : String → Option String) (cwd hn argv0 : Option String),
      ρ "BAT_PAGER" = none → ρ "PAGER" = none →
      (DeltaEnv.init ρ cwd hn argv0).pagers.2 = some "less" := by
  intro ρ cwd hn argv0 hbp hp
  rw [DeltaEnv.init_pagers_fallback, hbp, hp]
  exact gpfe_of_ok none none argv0 "less" [] (by decide)
    (isProblematicPager_false_left "less" argv0)

/-- Claim C9, witness: the empty environment resolves to `"less"`. -/
theorem claim_C9_witness :
    (DeltaEnv.init (fun _ => none) none none none).pagers.2 = some "less" :=
  claim_C9_theorem (fun _ => none) none none none rfl rfl

/-- Claim C10: when argv[0] is unavailable, the self-recursion comparison
is false, so a candidate whose first token's stem is neither `more` nor
`most` (from either source) is returned verbatim rather than
substituted. -/
theorem claim_C10_theorem :
    ∀ (bat_pager pager : Option String) (bin : String) (args : List String),
      shell_words.split (selectPagerCmd bat_pager pager).1 = some (bin :: args) →
      rustFileStem bin ≠ some "more" → rustFileStem bin ≠ some "most" →
      get_pager_from_env bat_pager pager none =
        some (selectPagerCmd bat_pager pager).1 := by
  intro bat_pager pager bin args hsplit h1 h2
  apply gpfe_of_ok bat_pager pager none bin args hsplit
  cases hf : (selectPagerCmd bat_pager pager).2
  · exact isProblematicPager_false_left bin none
  · rw [isProblematicPager_not_bad bin none h1 h2]
    exact isCurrentBinPager_none bin

/-- Claim C10, witness: `PAGER=delta` with argv[0] unavailable is returned
verbatim (self-recursion comparison evaluates to false). -/
theorem claim_C10_witness :
    get_pager_from_env none (some "delta") none = some "delta" :=
  claim_C10_theorem none (some "delta") "delta" []
    (by decide) (by decide) (by decide)
